import Mathlib

/-!
Verification development for the University-timetable-management repository.

The algorithmic surface of the repository is the PRD document: two SQL
triggers (`validate_availability_times`, `check_timetable_conflicts`) and the
Python pseudocode of the scheduling engine (`generate_timetable`,
`schedule_subject`, `schedule_component`, `find_optimal_slot`,
`calculate_slot_score`, `resolve_conflicts`).  Those six functions are
embedded here from the source.  Helper functions the pseudocode calls but
never defines (`get_available_staff`, `get_available_slots`,
`is_slot_available`, `has_consecutive_slots`, `creates_gap`,
`is_preferred_time`, `can_reschedule`, `reschedule_subject`,
`sort_subjects_by_priority`, `get_component_duration`) are modelled from the
spec, as marked in their doc comments.
-/

namespace TimetableMgmt

/-! ## SQL trigger embeddings -/

/-- A row of the `timetables` table, the fields the `check_timetable_conflicts`
trigger reads (plus `room`, which the trigger never reads). -/
structure TimetableRow where
  id : Nat
  batch : Nat
  subject : Nat
  staff : Nat
  day : Nat
  start : Nat
  finish : Nat
  room : Option Nat
deriving DecidableEq

/-- The interval test of the `check_timetable_conflicts` trigger, verbatim:
`(NEW.start BETWEEN start AND end) OR (NEW.end BETWEEN start AND end) OR
(start BETWEEN NEW.start AND NEW.end)`, with SQL `BETWEEN` inclusive on both
ends.  Arguments: `s1,e1` are NEW's times, `s2,e2` the existing row's. -/
def timesOverlap (s1 e1 s2 e2 : Nat) : Bool :=
  (decide (s2 ≤ s1) && decide (s1 ≤ e2)) ||
  (decide (s2 ≤ e1) && decide (e1 ≤ e2)) ||
  (decide (s1 ≤ s2) && decide (s2 ≤ e1))

/-- Embedding of the BEFORE INSERT trigger `check_timetable_conflicts`
(part_001 lines 375-416): a staff-namespace count, then a batch-namespace
count; a positive count signals an error.  No room check appears in the
source. -/
def check_timetable_conflicts (new : TimetableRow) (rows : List TimetableRow) :
    Except String Unit :=
  let staffConf := rows.any fun r =>
    decide (r.staff = new.staff) && decide (r.day = new.day) &&
    decide (r.id ≠ new.id) && timesOverlap new.start new.finish r.start r.finish
  if staffConf then Except.error "Staff scheduling conflict detected"
  else
    let batchConf := rows.any fun r =>
      decide (r.batch = new.batch) && decide (r.day = new.day) &&
      decide (r.id ≠ new.id) && timesOverlap new.start new.finish r.start r.finish
    if batchConf then Except.error "Batch scheduling conflict detected"
    else Except.ok ()

/-- The `availability_type` enum of the `availability` table. -/
inductive AvailabilityType where
  | weekday
  | weekend
  | both
deriving DecidableEq

/-- A row being inserted into the `availability` table. -/
structure AvailabilityRow where
  staff : Nat
  day : Nat
  start : Nat
  finish : Nat
  atype : AvailabilityType
deriving DecidableEq

/-- A row of the `batches` table, restricted to the window columns read by
the `validate_availability_times` trigger. -/
structure BatchRow where
  id : Nat
  weekdayStart : Nat
  weekdayEnd : Nat
  weekendStart : Nat
  weekendEnd : Nat
deriving DecidableEq

/-- A row of the `staff_assignments` table, restricted to the columns read by
the `validate_availability_times` trigger. -/
structure AssignmentRow where
  staff : Nat
  subject : Nat
  batch : Nat
deriving DecidableEq

/-- Embedding of the BEFORE INSERT trigger `validate_availability_times`
(part_001 lines 342-369).  `SELECT batch_id FROM staff_assignments WHERE
staff_id = NEW.staff_id LIMIT 1` is the first matching row in table order
(`find?`).  If the subquery yields no row, the window variables stay NULL and
the SQL comparisons with NULL are not true, so the window check is skipped;
the `start >= end` check still runs. -/
def validate_availability_times (new : AvailabilityRow) (batches : List BatchRow)
    (assigns : List AssignmentRow) : Except String Unit :=
  let firstAssign := assigns.find? fun a => decide (a.staff = new.staff)
  let window :=
    firstAssign.bind fun a =>
      (batches.find? fun b => decide (b.id = a.batch)).map fun b =>
        if new.atype = AvailabilityType.weekday then (b.weekdayStart, b.weekdayEnd)
        else (b.weekendStart, b.weekendEnd)
  let badWindow :=
    match window with
    | some (lo, hi) => decide (new.start < lo) || decide (hi < new.finish)
    | none => false
  if badWindow then Except.error "Availability time must be within batch constraints"
  else if new.finish ≤ new.start then Except.error "Start time must be before end time"
  else Except.ok ()

/-! ## Scheduling engine embedding -/

/-- The three component kinds of a subject. -/
inductive ComponentType where
  | lecture
  | tutorial
  | lab
deriving DecidableEq

/-- A subject of the input snapshot: identity, code and credit weight (the
two sort keys of the subject ordering policy). -/
structure Subject where
  id : Nat
  code : Nat
  credits : Nat
deriving DecidableEq

/-- A staff availability window of the snapshot (staff, day, interval,
available flag). -/
structure AvailWindow where
  staff : Nat
  day : Nat
  start : Nat
  finish : Nat
  available : Bool
deriving DecidableEq

/-- A staff-to-subject assignment of the snapshot. -/
structure Assignment where
  staff : Nat
  subject : Nat
deriving DecidableEq

/-- A staff-declared preferred start-time range. -/
structure PrefRange where
  staff : Nat
  lo : Nat
  hi : Nat
deriving DecidableEq

/-- The immutable input snapshot of one generation run: subjects,
assignments, availability, preferences, the batch windows per day type, the
per-component durations (`get_component_duration` in the source reads the
component type only) and the gap-penalty threshold. -/
structure Snapshot where
  subjects : List Subject
  assignments : List Assignment
  availability : List AvailWindow
  preferred : List PrefRange
  weekdayStart : Nat
  weekdayEnd : Nat
  weekendStart : Nat
  weekendEnd : Nat
  durLecture : Nat
  durTutorial : Nat
  durLab : Nat
  maxGap : Nat
deriving DecidableEq

/-- A candidate slot as produced by the candidate generator: day, start time
(minutes), staff identity. -/
structure Slot where
  day : Nat
  start : Nat
  staff : Nat
deriving DecidableEq

/-- The `slot.hour` attribute read by `calculate_slot_score`. -/
def Slot.hour (s : Slot) : Nat := s.start / 60

/-- A committed slot of the working timetable. -/
structure ScheduledSlot where
  subject : Nat
  comp : ComponentType
  staff : Nat
  day : Nat
  start : Nat
  finish : Nat
deriving DecidableEq

/-- The working timetable state. -/
abbrev Timetable := List ScheduledSlot

/-- Modelled from the spec: `get_component_duration` is undefined in the
source pseudocode; per the source call `get_component_duration(component_type)`
it depends on the component type only, reading the configured durations. -/
def get_component_duration (snap : Snapshot) : ComponentType → Nat
  | ComponentType.lecture => snap.durLecture
  | ComponentType.tutorial => snap.durTutorial
  | ComponentType.lab => snap.durLab

/-- Modelled from the spec: the batch window for a day type (weekday for
days 0-4, weekend for days 5-6). -/
def batchWindow (snap : Snapshot) (day : Nat) : Nat × Nat :=
  if day < 5 then (snap.weekdayStart, snap.weekdayEnd)
  else (snap.weekendStart, snap.weekendEnd)

/-- Modelled from the spec: `get_available_staff` is undefined in the source;
spec 4.2 fixes it as the staff assigned to the subject, in ascending
staff-identity order. -/
def get_available_staff (subjectId : Nat) (assigns : List Assignment) : List Nat :=
  List.insertionSort (fun a b => a ≤ b)
    ((assigns.filter fun a => decide (a.subject = subjectId)).map fun a => a.staff)

/-- Start times inside an effective window `[lo, hi]` at the default step
granularity (= component duration, spec 4.2), each satisfying
`start + duration <= window end`.  A non-positive duration yields no starts
(the spec's domain requires duration > 0). -/
def windowStarts (lo hi dur : Nat) : List Nat :=
  if dur = 0 then []
  else if lo + dur ≤ hi then
    (List.range ((hi - (lo + dur)) / dur + 1)).map fun i => lo + i * dur
  else []

/-- Modelled from the spec: `get_available_slots` is undefined in the source;
spec 4.2 fixes the enumeration order as days in canonical order, within a day
each eligible staff member in ascending identity order, within a staff member
each available window, producing start times at the window granularity with
the interval inside the batch bounds for that day type.  As in the source
call, the current timetable is not consulted here; occupancy is checked later
by `is_slot_available`. -/
def get_available_slots (snap : Snapshot) (ct : ComponentType) (staffL : List Nat) :
    List Slot :=
  let dur := get_component_duration snap ct
  (List.range 7).flatMap fun d =>
    staffL.flatMap fun st =>
      (snap.availability.filter fun w =>
          decide (w.staff = st) && decide (w.day = d) && w.available).flatMap fun w =>
        let bw := batchWindow snap d
        (windowStarts (max w.start bw.1) (min w.finish bw.2) dur).map fun s =>
          { day := d, start := s, staff := st }

/-- The occupancy tracker's half-open overlap test from spec 4.1:
`[s1,e1)` and `[s2,e2)` overlap iff `s1 < e2 && s2 < e1`. -/
def overlapHalf (s1 e1 s2 e2 : Nat) : Bool := decide (s1 < e2) && decide (s2 < e1)

/-- Modelled from the spec: `is_slot_available` is undefined in the source;
per spec 4.1/4.4 a slot is available iff the staff namespace and the batch
namespace are both free (one batch per run, so every committed slot shares
the batch), using the tracker's half-open overlap test. -/
def is_slot_available (slot : Slot) (dur : Nat) (tt : Timetable) : Bool :=
  (tt.all fun sch => !(decide (sch.staff = slot.staff) && decide (sch.day = slot.day) &&
      overlapHalf slot.start (slot.start + dur) sch.start sch.finish)) &&
  (tt.all fun sch => !(decide (sch.day = slot.day) &&
      overlapHalf slot.start (slot.start + dur) sch.start sch.finish))

/-- Modelled from the spec: `has_consecutive_slots` is undefined in the
source; spec 4.3 reads it as immediate adjacency (no gap) to an
already-committed slot of the same staff member on the same day.  The source
passes no subject to the scoring path, so the spec's same-subject refinement
is not expressible; adjacency is keyed on the candidate's staff and day. -/
def has_consecutive_slots (snap : Snapshot) (ct : ComponentType) (slot : Slot)
    (tt : Timetable) : Bool :=
  tt.any fun sch => decide (sch.staff = slot.staff) && decide (sch.day = slot.day) &&
    (decide (sch.finish = slot.start) ||
     decide (sch.start = slot.start + get_component_duration snap ct))

/-- The claim's contiguity condition stated from the spec's words, for
comparison: +15 requires adjacency to an already-committed slot of the SAME
SUBJECT and the same staff on the same day.  The subject being scheduled is
an explicit argument here, because the source's scoring path
`calculate_slot_score(slot, component_type, staff, timetable)` does not
receive it. -/
def has_consecutive_slots_claimed (subjectId : Nat) (snap : Snapshot)
    (ct : ComponentType) (slot : Slot) (tt : Timetable) : Bool :=
  tt.any fun sch => decide (sch.subject = subjectId) &&
    decide (sch.staff = slot.staff) && decide (sch.day = slot.day) &&
    (decide (sch.finish = slot.start) ||
     decide (sch.start = slot.start + get_component_duration snap ct))

/-- Modelled from the spec: `creates_gap` is undefined in the source; spec
4.3 reads it as placing the candidate leaving the staff member an idle gap
strictly between 0 and the configured max-gap threshold next to one of their
slots that day: the span between the candidate and that slot must be idle,
i.e. not overlapped by any other committed slot of the same staff member on
that day. -/
def creates_gap (snap : Snapshot) (ct : ComponentType) (slot : Slot)
    (tt : Timetable) : Bool :=
  let dur := get_component_duration snap ct
  tt.any fun sch => decide (sch.staff = slot.staff) && decide (sch.day = slot.day) &&
    ((decide (sch.finish < slot.start) && decide (slot.start - sch.finish < snap.maxGap) &&
      (tt.all fun o => !(decide (o.staff = slot.staff) && decide (o.day = slot.day) &&
        overlapHalf sch.finish slot.start o.start o.finish))) ||
     (decide (slot.start + dur < sch.start) &&
      decide (sch.start - (slot.start + dur) < snap.maxGap) &&
      (tt.all fun o => !(decide (o.staff = slot.staff) && decide (o.day = slot.day) &&
        overlapHalf (slot.start + dur) sch.start o.start o.finish))))

/-- Modelled from the spec: `is_preferred_time` is undefined in the source;
spec 4.3 reads it as the candidate's start time falling in a staff-declared
preferred time range. -/
def is_preferred_time (snap : Snapshot) (slot : Slot) : Bool :=
  snap.preferred.any fun p =>
    decide (p.staff = slot.staff) && decide (p.lo ≤ slot.start) && decide (slot.start ≤ p.hi)

/-- Embedding of `calculate_slot_score` (part_001 lines 645-667): a running
score, four sequential conditional additions.  The source's `staff` argument
is consumed only by the modelled helper predicates, which key on the
candidate slot's own staff identity. -/
def calculate_slot_score (snap : Snapshot) (slot : Slot) (ct : ComponentType)
    (tt : Timetable) : Int :=
  let score : Int := 0
  let score := if ct = ComponentType.lecture ∧ slot.hour < 12 then score + 10 else score
  let score := if has_consecutive_slots snap ct slot tt then score + 15 else score
  let score := if creates_gap snap ct slot tt then score - 5 else score
  let score := if is_preferred_time snap slot then score + 20 else score
  score

/-- The ordering used by `find_optimal_slot`'s sort: score descending and
nothing else (`sort(key=lambda x: x[1], reverse=True)` in the source). -/
def scoreLe (a b : Slot × Int) : Prop := b.2 ≤ a.2

instance : DecidableRel scoreLe := fun a b => inferInstanceAs (Decidable (b.2 ≤ a.2))

instance : IsTotal (Slot × Int) scoreLe := ⟨fun a b => le_total b.2 a.2⟩

instance : IsTrans (Slot × Int) scoreLe := ⟨fun _ _ _ hab hbc => le_trans hbc hab⟩

/-- Embedding of `find_optimal_slot` (part_001 lines 620-643): score every
available slot, sort by score descending (stable, as Python's `sort`), return
the first slot that passes `is_slot_available`. -/
def find_optimal_slot (snap : Snapshot) (ct : ComponentType) (staffL : List Nat)
    (tt : Timetable) : Option Slot :=
  let dur := get_component_duration snap ct
  let available_slots := get_available_slots snap ct staffL
  let scored_slots := available_slots.map fun s => (s, calculate_slot_score snap s ct tt)
  let sorted_slots := List.insertionSort scoreLe scored_slots
  (sorted_slots.find? fun p => is_slot_available p.1 dur tt).map fun p => p.1

/-- Embedding of `schedule_component` (part_001 lines 598-618): look up the
eligible staff, find the optimal slot, and on success commit it
(`assign_slot`, modelled from the spec as appending the `ScheduledSlot`). -/
def schedule_component (snap : Snapshot) (subject : Subject) (ct : ComponentType)
    (tt : Timetable) : Option Timetable :=
  let available_staff := get_available_staff subject.id snap.assignments
  match find_optimal_slot snap ct available_staff tt with
  | some slot =>
      some (tt ++ [{ subject := subject.id, comp := ct, staff := slot.staff,
                     day := slot.day, start := slot.start,
                     finish := slot.start + get_component_duration snap ct }])
  | none => none

/-- The component loop of `schedule_subject`: on the first failing component
it stops with `false`, keeping the components committed so far (the source
mutates the timetable in place). -/
def scheduleComps (snap : Snapshot) (subject : Subject) :
    List ComponentType → Timetable → Bool × Timetable
  | [], tt => (true, tt)
  | c :: cs, tt =>
    match schedule_component snap subject c tt with
    | some tt2 => scheduleComps snap subject cs tt2
    | none => (false, tt)

/-- Embedding of `schedule_subject` (part_001 lines 585-596): the fixed
component order `['lecture', 'tutorial', 'lab']`. -/
def schedule_subject (snap : Snapshot) (subject : Subject) (tt : Timetable) :
    Bool × Timetable :=
  scheduleComps snap subject [ComponentType.lecture, ComponentType.tutorial,
    ComponentType.lab] tt

/-- Modelled from the spec (4.5 step 1): the relaxed score used by the first
repair attempt ignores the contiguous-block and gap-penalty terms, keeping
the morning and preferred-time terms. -/
def calculate_slot_score_relaxed (snap : Snapshot) (slot : Slot) (ct : ComponentType) :
    Int :=
  let score : Int := 0
  let score := if ct = ComponentType.lecture ∧ slot.hour < 12 then score + 10 else score
  let score := if is_preferred_time snap slot then score + 20 else score
  score

/-- `find_optimal_slot` under the relaxed scoring of repair step 1; the hard
availability constraints are unchanged. -/
def find_optimal_slot_relaxed (snap : Snapshot) (ct : ComponentType) (staffL : List Nat)
    (tt : Timetable) : Option Slot :=
  let dur := get_component_duration snap ct
  let available_slots := get_available_slots snap ct staffL
  let scored_slots := available_slots.map fun s => (s, calculate_slot_score_relaxed snap s ct)
  let sorted_slots := List.insertionSort scoreLe scored_slots
  (sorted_slots.find? fun p => is_slot_available p.1 dur tt).map fun p => p.1

/-- `schedule_component` under the relaxed scoring of repair step 1. -/
def schedule_component_relaxed (snap : Snapshot) (subject : Subject) (ct : ComponentType)
    (tt : Timetable) : Option Timetable :=
  let available_staff := get_available_staff subject.id snap.assignments
  match find_optimal_slot_relaxed snap ct available_staff tt with
  | some slot =>
      some (tt ++ [{ subject := subject.id, comp := ct, staff := slot.staff,
                     day := slot.day, start := slot.start,
                     finish := slot.start + get_component_duration snap ct }])
  | none => none

/-- The component loop under relaxed scoring. -/
def scheduleCompsRelaxed (snap : Snapshot) (subject : Subject) :
    List ComponentType → Timetable → Bool × Timetable
  | [], tt => (true, tt)
  | c :: cs, tt =>
    match schedule_component_relaxed snap subject c tt with
    | some tt2 => scheduleCompsRelaxed snap subject cs tt2
    | none => (false, tt)

/-- `schedule_subject` under the relaxed scoring of repair step 1. -/
def schedule_subject_relaxed (snap : Snapshot) (subject : Subject) (tt : Timetable) :
    Bool × Timetable :=
  scheduleCompsRelaxed snap subject [ComponentType.lecture, ComponentType.tutorial,
    ComponentType.lab] tt

/-- The per-component retry budget of the repair strategy (spec 4.5,
default 3). -/
def retryBudget : Nat := 3

/-- Modelled from the spec (4.5 step 2): the committed slots occupying a
window the blocked subject could use, i.e. slots held by one of its eligible
staff (the batch namespace is shared by every slot of the single-batch run),
lowest priority first: commits happen in priority order, so later commits
are lower priority. -/
def evictionCandidates (snap : Snapshot) (subject : Subject) (tt : Timetable) :
    Timetable :=
  (tt.filter fun sch =>
    (get_available_staff subject.id snap.assignments).contains sch.staff).reverse

/-- Modelled from the spec (4.5 step 2): one evict-and-reschedule attempt:
release the committed slot `sch`, re-run relaxed placement for the blocked
subject, then attempt to re-place the evicted component from scratch; if
either step fails, the eviction is rolled back and the original timetable is
returned unchanged (the rollback invariant of spec section 7). -/
def evict_one (snap : Snapshot) (subject : Subject) (sch : ScheduledSlot)
    (tt : Timetable) : Bool × Timetable :=
  let r := schedule_subject_relaxed snap subject (tt.erase sch)
  if r.1 then
    match snap.subjects.find? fun s => decide (s.id = sch.subject) with
    | some subjE =>
      match schedule_component snap subjE sch.comp r.2 with
      | some tt3 => (true, tt3)
      | none => (false, tt)
    | none => (false, tt)
  else (false, tt)

/-- Modelled from the spec (4.5 step 2): successive single-eviction repair
attempts over the eviction candidates, bounded by the remaining budget; each
failed attempt leaves the original timetable in place. -/
def tryEvict (snap : Snapshot) (subject : Subject) (tt : Timetable) :
    List ScheduledSlot → Nat → Nat → Bool × Timetable × Nat
  | [], _, a => (false, tt, a)
  | _ :: _, 0, a => (false, tt, a)
  | sch :: rest, fuel + 1, a =>
    let r := evict_one snap subject sch tt
    if r.1 then (true, r.2, a + 1) else tryEvict snap subject tt rest fuel (a + 1)

/-- Modelled from the spec (4.5): the bounded repair of one blocked
component: the first attempt relaxes the scoring terms (step 1), the
remaining budget goes to single-eviction attempts (step 2), then the repair
gives up (step 3).  Returns the success flag, the resulting timetable and
the number of repair attempts made. -/
def attempt_repair (snap : Snapshot) (subject : Subject) (tt : Timetable) :
    Bool × Timetable × Nat :=
  let r1 := schedule_subject_relaxed snap subject tt
  if r1.1 then (true, r1.2, 1)
  else tryEvict snap subject tt (evictionCandidates snap subject tt) (retryBudget - 1) 1

/-- Modelled from the spec: `can_reschedule` is undefined in the source;
spec 4.5 fixes the repair strategy, so the check is whether the bounded
repair `attempt_repair` succeeds on the current timetable. -/
def can_reschedule (snap : Snapshot) (subject : Subject) (tt : Timetable) : Bool :=
  (attempt_repair snap subject tt).1

/-- Modelled from the spec: `reschedule_subject` is undefined in the source;
it is the timetable produced by the successful bounded repair that
`can_reschedule` found. -/
def reschedule_subject (snap : Snapshot) (subject : Subject) (tt : Timetable) :
    Timetable :=
  (attempt_repair snap subject tt).2.1

/-- The loop of `resolve_conflicts`, with CPython's list-iteration semantics:
the iterator advances by index, and `conflicts.remove(conflict)` shifts later
elements left so the next element is skipped.  The fuel starts at the list
length; the loop exits when the index reaches the current length (fuel can
only run out once `length - i` is exhausted, which is the same exit).  The
third result counts loop iterations, i.e. `can_reschedule` repair
attempts. -/
def resolveAux (snap : Snapshot) :
    Nat → List Subject → Timetable → Nat → Nat → List Subject × Timetable × Nat
  | 0, confs, tt, _, a => (confs, tt, a)
  | fuel + 1, confs, tt, i, a =>
    if h : i < confs.length then
      let c := confs.get ⟨i, h⟩
      if can_reschedule snap c tt then
        resolveAux snap fuel (confs.erase c) (reschedule_subject snap c tt) (i + 1) (a + 1)
      else
        resolveAux snap fuel confs tt (i + 1) (a + 1)
    else (confs, tt, a)

/-- Embedding of `resolve_conflicts` (part_001 lines 669-679): iterate the
conflicts, remove each reschedulable one, succeed iff the list ends empty.
Returns the remaining conflicts, the timetable, and the attempt count. -/
def resolve_conflicts (snap : Snapshot) (confs : List Subject) (tt : Timetable) :
    List Subject × Timetable × Nat :=
  resolveAux snap confs.length confs tt 0 0

/-- Modelled from the spec: `sort_subjects_by_priority` is undefined in the
source; spec 4.4 fixes subject order as credit-weight descending, then code
ascending. -/
def sort_subjects_by_priority (subs : List Subject) : List Subject :=
  List.insertionSort
    (fun s t => t.credits < s.credits ∨ (s.credits = t.credits ∧ s.code ≤ t.code)) subs

/-- The subject loop of `generate_timetable`: schedule each subject; on
failure append it to the conflicts and run `resolve_conflicts`; if that does
not empty the list, return `(None, conflicts)`. -/
def generateAux (snap : Snapshot) :
    List Subject → Timetable → List Subject → Option Timetable × List Subject
  | [], tt, confs => (some tt, confs)
  | sub :: rest, tt, confs =>
    match schedule_subject snap sub tt with
    | (true, tt2) => generateAux snap rest tt2 confs
    | (false, tt2) =>
      let r := resolve_conflicts snap (confs ++ [sub]) tt2
      if r.1.isEmpty then generateAux snap rest r.2.1 r.1 else (none, r.1)

/-- Embedding of `generate_timetable` (part_001 lines 562-583): sort the
subjects, start from an empty timetable and empty conflicts, run the subject
loop. -/
def generate_timetable (snap : Snapshot) : Option Timetable × List Subject :=
  generateAux snap (sort_subjects_by_priority snap.subjects) [] []

/-- Instrumented mirror of the subject loop: `true` iff every
`schedule_subject` call of the run succeeds (a clean run that never enters
the conflict path). -/
def generateAuxClean (snap : Snapshot) : List Subject → Timetable → Bool
  | [], _ => true
  | sub :: rest, tt =>
    match schedule_subject snap sub tt with
    | (true, tt2) => generateAuxClean snap rest tt2
    | (false, _) => false

/-- `true` iff the `generate_timetable` run on `snap` never enters the
conflict path. -/
def generate_clean (snap : Snapshot) : Bool :=
  generateAuxClean snap (sort_subjects_by_priority snap.subjects) []

/-- Instrumented mirror of the subject loop returning the working timetable
at the moment the run ends, including the abort branch that discards it. -/
def generateAuxWorking (snap : Snapshot) :
    List Subject → Timetable → List Subject → Timetable
  | [], tt, _ => tt
  | sub :: rest, tt, confs =>
    match schedule_subject snap sub tt with
    | (true, tt2) => generateAuxWorking snap rest tt2 confs
    | (false, tt2) =>
      let r := resolve_conflicts snap (confs ++ [sub]) tt2
      if r.1.isEmpty then generateAuxWorking snap rest r.2.1 r.1 else r.2.1

/-- The working timetable of the `generate_timetable` run on `snap` at the
moment the run ends (committed slots survive here even when the run returns
no timetable). -/
def generate_working (snap : Snapshot) : Timetable :=
  generateAuxWorking snap (sort_subjects_by_priority snap.subjects) [] []

/-! ## Concrete inputs used by counterexamples and witnesses -/

/-- A well-formed single subject. -/
def subC2 : Subject := { id := 1, code := 1, credits := 3 }

/-- A well-formed snapshot whose single subject places its lecture and
tutorial but cannot fit its 120-minute lab in the staff member's
540..660 window. -/
def snapC2 : Snapshot :=
  { subjects := [subC2], assignments := [{ staff := 1, subject := 1 }],
    availability := [{ staff := 1, day := 0, start := 540, finish := 660, available := true }],
    preferred := [], weekdayStart := 510, weekdayEnd := 1050,
    weekendStart := 510, weekendEnd := 1230,
    durLecture := 60, durTutorial := 60, durLab := 120, maxGap := 60 }

/-- A fully schedulable subject (credits 4, so it is processed first). -/
def subj1 : Subject := { id := 1, code := 1, credits := 4 }

/-- A second subject (credits 3, processed after `subj1`). -/
def subj2 : Subject := { id := 2, code := 2, credits := 3 }

/-- Snapshot where `subj1` schedules fully and `subj2` places its lecture
(staff 3, window 540..600) but then fails on the tutorial. -/
def snapC5 : Snapshot :=
  { subjects := [subj1, subj2],
    assignments := [{ staff := 1, subject := 1 }, { staff := 3, subject := 2 }],
    availability := [{ staff := 1, day := 0, start := 600, finish := 960, available := true },
                     { staff := 3, day := 0, start := 540, finish := 600, available := true }],
    preferred := [], weekdayStart := 510, weekdayEnd := 1050,
    weekendStart := 510, weekendEnd := 1230,
    durLecture := 60, durTutorial := 60, durLab := 120, maxGap := 60 }

/-- Snapshot producing two equal-score tutorial candidates: staff 1 at
day 0 / 840 and staff 2 at day 0 / 540. -/
def snapC4 : Snapshot :=
  { subjects := [], assignments := [],
    availability := [{ staff := 1, day := 0, start := 840, finish := 900, available := true },
                     { staff := 2, day := 0, start := 540, finish := 600, available := true }],
    preferred := [], weekdayStart := 510, weekdayEnd := 1050,
    weekendStart := 510, weekendEnd := 1230,
    durLecture := 60, durTutorial := 60, durLab := 120, maxGap := 60 }

/-- Malformed snapshot: `subj2` has no eligible staff assignment at all,
while `subj1` is fully schedulable and is processed first. -/
def snapC8 : Snapshot :=
  { subjects := [subj1, subj2],
    assignments := [{ staff := 1, subject := 1 }],
    availability := [{ staff := 1, day := 0, start := 600, finish := 960, available := true }],
    preferred := [], weekdayStart := 510, weekdayEnd := 1050,
    weekendStart := 510, weekendEnd := 1230,
    durLecture := 60, durTutorial := 60, durLab := 120, maxGap := 60 }

/-- Snapshot with a single fully schedulable subject (a clean run). -/
def snapW5 : Snapshot :=
  { subjects := [subj1],
    assignments := [{ staff := 1, subject := 1 }],
    availability := [{ staff := 1, day := 0, start := 600, finish := 960, available := true }],
    preferred := [], weekdayStart := 510, weekdayEnd := 1050,
    weekendStart := 510, weekendEnd := 1230,
    durLecture := 60, durTutorial := 60, durLab := 120, maxGap := 60 }

/-- An existing timetable row occupying room 1 on day 0, 540..600. -/
def rowOld : TimetableRow :=
  { id := 1, batch := 1, subject := 1, staff := 1, day := 0, start := 540, finish := 600,
    room := some 1 }

/-- A new row with different staff and batch but the same room and the same
time interval as `rowOld`. -/
def rowNewRoom : TimetableRow :=
  { id := 0, batch := 2, subject := 2, staff := 2, day := 0, start := 540, finish := 600,
    room := some 1 }

/-- An availability insert of type `both` starting at 520. -/
def availNew : AvailabilityRow :=
  { staff := 1, day := 0, start := 520, finish := 600, atype := AvailabilityType.both }

/-- Two batches; batch 11 has an absurd 0..1 window. -/
def batchesX : List BatchRow :=
  [{ id := 10, weekdayStart := 510, weekdayEnd := 1050, weekendStart := 540, weekendEnd := 1230 },
   { id := 11, weekdayStart := 0, weekdayEnd := 1, weekendStart := 0, weekendEnd := 1 }]

/-- Staff 1 assigned in two batches (10 first, then 11). -/
def assignsTwo : List AssignmentRow :=
  [{ staff := 1, subject := 5, batch := 10 }, { staff := 1, subject := 6, batch := 11 }]

/-- Staff 1 assigned in batch 10 only. -/
def assignsOne : List AssignmentRow :=
  [{ staff := 1, subject := 5, batch := 10 }]

/-- A committed subject-1 lecture held by staff 5, ending at 600 on day 0. -/
def ttC6 : Timetable :=
  [{ subject := 1, comp := ComponentType.lecture, staff := 5, day := 0, start := 540,
     finish := 600 }]

/-- A candidate for staff 5 on day 0 starting at 600, back-to-back with the
committed subject-1 slot of `ttC6`. -/
def slotC6 : Slot := { day := 0, start := 600, staff := 5 }

/-! ## Helper lemmas -/

/-- A successful `schedule_component` call appends exactly one slot, carrying
the subject's id and the component type. -/
theorem schedule_component_some_shape (snap : Snapshot) (subject : Subject)
    (ct : ComponentType) (tt tt2 : Timetable)
    (h : schedule_component snap subject ct tt = some tt2) :
    ∃ sl : ScheduledSlot, tt2 = tt ++ [sl] ∧ sl.subject = subject.id ∧ sl.comp = ct := by
  simp only [schedule_component] at h
  cases hf : find_optimal_slot snap ct (get_available_staff subject.id snap.assignments) tt with
  | none => rw [hf] at h; exact absurd h (by simp)
  | some slot =>
    rw [hf] at h
    simp only [Option.some.injEq] at h
    exact ⟨_, h.symm, rfl, rfl⟩

/-- The component loop only ever appends to the timetable. -/
theorem scheduleComps_snd_append (snap : Snapshot) (subject : Subject) :
    ∀ (cs : List ComponentType) (tt : Timetable),
      ∃ ext, (scheduleComps snap subject cs tt).2 = tt ++ ext := by
  intro cs
  induction cs with
  | nil => intro tt; exact ⟨[], by simp [scheduleComps]⟩
  | cons c cs ih =>
    intro tt
    cases h : schedule_component snap subject c tt with
    | none => exact ⟨[], by simp [scheduleComps, h]⟩
    | some tt2 =>
      obtain ⟨sl, hsl, -, -⟩ := schedule_component_some_shape snap subject c tt tt2 h
      obtain ⟨ext, hext⟩ := ih tt2
      refine ⟨[sl] ++ ext, ?_⟩
      simp only [scheduleComps, h]
      rw [hext, hsl]
      simp [List.append_assoc]

/-- `schedule_subject` only ever appends to the timetable. -/
theorem schedule_subject_snd_append (snap : Snapshot) (subject : Subject) (tt : Timetable) :
    ∃ ext, (schedule_subject snap subject tt).2 = tt ++ ext :=
  scheduleComps_snd_append snap subject _ tt

/-- A successful `schedule_subject` appends exactly three slots, one per
component, in the fixed lecture/tutorial/lab order. -/
theorem schedule_subject_true_shape (snap : Snapshot) (subject : Subject) (tt : Timetable)
    (h : (schedule_subject snap subject tt).1 = true) :
    ∃ x y z : ScheduledSlot,
      (schedule_subject snap subject tt).2 = tt ++ [x, y, z] ∧
      x.subject = subject.id ∧ x.comp = ComponentType.lecture ∧
      y.subject = subject.id ∧ y.comp = ComponentType.tutorial ∧
      z.subject = subject.id ∧ z.comp = ComponentType.lab := by
  rcases h1 : schedule_component snap subject ComponentType.lecture tt with _ | t1
  · simp only [schedule_subject, scheduleComps, h1] at h
    exact absurd h (by simp)
  rcases h2 : schedule_component snap subject ComponentType.tutorial t1 with _ | t2
  · simp only [schedule_subject, scheduleComps, h1, h2] at h
    exact absurd h (by simp)
  rcases h3 : schedule_component snap subject ComponentType.lab t2 with _ | t3
  · simp only [schedule_subject, scheduleComps, h1, h2, h3] at h
    exact absurd h (by simp)
  obtain ⟨x, hx, hx1, hx2⟩ := schedule_component_some_shape snap subject _ tt t1 h1
  obtain ⟨y, hy, hy1, hy2⟩ := schedule_component_some_shape snap subject _ t1 t2 h2
  obtain ⟨z, hz, hz1, hz2⟩ := schedule_component_some_shape snap subject _ t2 t3 h3
  refine ⟨x, y, z, ?_, hx1, hx2, hy1, hy2, hz1, hz2⟩
  simp only [schedule_subject, scheduleComps, h1, h2, h3]
  rw [hz, hy, hx]
  simp [List.append_assoc]

/-- The repair loop performs at most `fuel` repair attempts beyond the
starting count. -/
theorem resolveAux_attempts_le (snap : Snapshot) :
    ∀ (fuel : Nat) (confs : List Subject) (tt : Timetable) (i a : Nat),
      (resolveAux snap fuel confs tt i a).2.2 ≤ a + fuel := by
  intro fuel
  induction fuel with
  | zero => intro confs tt i a; simp [resolveAux]
  | succ fuel ih =>
    intro confs tt i a
    simp only [resolveAux]
    split
    · split
      · exact le_trans (ih _ _ _ _) (by omega)
      · exact le_trans (ih _ _ _ _) (by omega)
    · dsimp only
      omega

/-- A successful relaxed `schedule_component` call appends exactly one
slot. -/
theorem schedule_component_relaxed_some_append (snap : Snapshot) (subject : Subject)
    (ct : ComponentType) (tt tt2 : Timetable)
    (h : schedule_component_relaxed snap subject ct tt = some tt2) :
    ∃ sl : ScheduledSlot, tt2 = tt ++ [sl] := by
  simp only [schedule_component_relaxed] at h
  cases hf : find_optimal_slot_relaxed snap ct
      (get_available_staff subject.id snap.assignments) tt with
  | none => rw [hf] at h; exact absurd h (by simp)
  | some slot =>
    rw [hf] at h
    simp only [Option.some.injEq] at h
    exact ⟨_, h.symm⟩

/-- The relaxed component loop only ever appends to the timetable. -/
theorem scheduleCompsRelaxed_snd_append (snap : Snapshot) (subject : Subject) :
    ∀ (cs : List ComponentType) (tt : Timetable),
      ∃ ext, (scheduleCompsRelaxed snap subject cs tt).2 = tt ++ ext := by
  intro cs
  induction cs with
  | nil => intro tt; exact ⟨[], by simp [scheduleCompsRelaxed]⟩
  | cons c cs ih =>
    intro tt
    cases h : schedule_component_relaxed snap subject c tt with
    | none => exact ⟨[], by simp [scheduleCompsRelaxed, h]⟩
    | some tt2 =>
      obtain ⟨sl, hsl⟩ := schedule_component_relaxed_some_append snap subject c tt tt2 h
      obtain ⟨ext, hext⟩ := ih tt2
      refine ⟨[sl] ++ ext, ?_⟩
      simp only [scheduleCompsRelaxed, h]
      rw [hext, hsl]
      simp [List.append_assoc]

/-- Relaxed `schedule_subject` only ever appends to the timetable. -/
theorem schedule_subject_relaxed_snd_append (snap : Snapshot) (subject : Subject)
    (tt : Timetable) :
    ∃ ext, (schedule_subject_relaxed snap subject tt).2 = tt ++ ext :=
  scheduleCompsRelaxed_snd_append snap subject _ tt

/-- One eviction attempt loses at most the evicted slot: every slot of the
input timetable other than the evicted one survives into the result. -/
theorem evict_one_mem (snap : Snapshot) (subject : Subject) (sch : ScheduledSlot)
    (tt : Timetable) (s : ScheduledSlot) (hs : s ∈ tt) :
    s = sch ∨ s ∈ (evict_one snap subject sch tt).2 := by
  by_cases heq : s = sch
  · exact Or.inl heq
  · refine Or.inr ?_
    have hs1 : s ∈ tt.erase sch := (List.mem_erase_of_ne heq).mpr hs
    rcases hr : schedule_subject_relaxed snap subject (tt.erase sch) with ⟨ok, ttr⟩
    have hsr : s ∈ ttr := by
      obtain ⟨ext, hext⟩ := schedule_subject_relaxed_snd_append snap subject (tt.erase sch)
      rw [hr] at hext
      simp only at hext
      rw [hext]
      exact List.mem_append_left _ hs1
    simp only [evict_one, hr]
    cases ok
    · simpa using hs
    · simp only
      cases hfind : snap.subjects.find? (fun s2 => decide (s2.id = sch.subject)) with
      | none => simpa using hs
      | some subjE =>
        cases hsc : schedule_component snap subjE sch.comp ttr with
        | none =>
          simp only [hsc]
          exact hs
        | some tt3 =>
          obtain ⟨sl, hsl, -, -⟩ :=
            schedule_component_some_shape snap subjE sch.comp ttr tt3 hsc
          simp only [hsc]
          rw [hsl]
          exact List.mem_append_left _ hsr

/-- A failed eviction loop leaves the timetable unchanged. -/
theorem tryEvict_fst_false (snap : Snapshot) (subject : Subject) (tt : Timetable) :
    ∀ (l : List ScheduledSlot) (fuel a : Nat),
      (tryEvict snap subject tt l fuel a).1 = false →
      (tryEvict snap subject tt l fuel a).2.1 = tt := by
  intro l
  induction l with
  | nil => intro fuel a _; simp [tryEvict]
  | cons sch rest ih =>
    intro fuel a
    cases fuel with
    | zero => intro _; simp [tryEvict]
    | succ fuel =>
      simp only [tryEvict]
      split
      · intro hfalse; exact absurd hfalse (by simp)
      · exact ih fuel (a + 1)

/-- The eviction loop makes at most `fuel` further attempts. -/
theorem tryEvict_attempts (snap : Snapshot) (subject : Subject) (tt : Timetable) :
    ∀ (l : List ScheduledSlot) (fuel a : Nat),
      (tryEvict snap subject tt l fuel a).2.2 ≤ a + fuel := by
  intro l
  induction l with
  | nil => intro fuel a; simp [tryEvict]
  | cons sch rest ih =>
    intro fuel a
    cases fuel with
    | zero => simp [tryEvict]
    | succ fuel =>
      simp only [tryEvict]
      split
      · dsimp only; omega
      · exact le_trans (ih fuel (a + 1)) (by omega)

/-- The whole eviction loop loses at most one committed slot. -/
theorem tryEvict_mem (snap : Snapshot) (subject : Subject) (tt : Timetable) :
    ∀ (l : List ScheduledSlot) (fuel a : Nat),
      ∃ ev : Option ScheduledSlot, ∀ s ∈ tt,
        some s = ev ∨ s ∈ (tryEvict snap subject tt l fuel a).2.1 := by
  intro l
  induction l with
  | nil =>
    intro fuel a
    exact ⟨none, fun s hs => Or.inr (by simpa [tryEvict] using hs)⟩
  | cons sch rest ih =>
    intro fuel a
    cases fuel with
    | zero => exact ⟨none, fun s hs => Or.inr (by simpa [tryEvict] using hs)⟩
    | succ fuel =>
      rcases hr : evict_one snap subject sch tt with ⟨ok, tt2⟩
      cases ok
      · obtain ⟨ev, hev⟩ := ih fuel (a + 1)
        refine ⟨ev, fun s hs => ?_⟩
        have := hev s hs
        simpa [tryEvict, hr] using this
      · refine ⟨some sch, fun s hs => ?_⟩
        rcases evict_one_mem snap subject sch tt s hs with h | h
        · exact Or.inl (by rw [h])
        · rw [hr] at h
          simp only at h
          exact Or.inr (by simpa [tryEvict, hr] using h)

/-- The bounded repair makes at most `retryBudget` attempts. -/
theorem attempt_repair_attempts (snap : Snapshot) (subject : Subject) (tt : Timetable) :
    (attempt_repair snap subject tt).2.2 ≤ retryBudget := by
  rcases hr : schedule_subject_relaxed snap subject tt with ⟨ok, ttr⟩
  cases ok
  · have h := tryEvict_attempts snap subject tt (evictionCandidates snap subject tt)
      (retryBudget - 1) 1
    simp only [attempt_repair, hr]
    simp only [Bool.false_eq_true, if_false]
    exact le_trans h (by norm_num [retryBudget])
  · simp [attempt_repair, hr, retryBudget]

/-- A failed repair always restores the original timetable (the eviction
rollback invariant). -/
theorem attempt_repair_rollback (snap : Snapshot) (subject : Subject) (tt : Timetable)
    (h : (attempt_repair snap subject tt).1 = false) :
    (attempt_repair snap subject tt).2.1 = tt := by
  rcases hr : schedule_subject_relaxed snap subject tt with ⟨ok, ttr⟩
  cases ok
  · simp only [attempt_repair, hr, Bool.false_eq_true, if_false] at h ⊢
    exact tryEvict_fst_false snap subject tt _ _ _ h
  · simp [attempt_repair, hr] at h

/-- The whole repair of one component evicts at most one committed slot. -/
theorem attempt_repair_mem (snap : Snapshot) (subject : Subject) (tt : Timetable) :
    ∃ ev : Option ScheduledSlot, ∀ s ∈ tt,
      some s = ev ∨ s ∈ (attempt_repair snap subject tt).2.1 := by
  rcases hr : schedule_subject_relaxed snap subject tt with ⟨ok, ttr⟩
  cases ok
  · obtain ⟨ev, hev⟩ := tryEvict_mem snap subject tt (evictionCandidates snap subject tt)
      (retryBudget - 1) 1
    refine ⟨ev, fun s hs => ?_⟩
    have := hev s hs
    simpa [attempt_repair, hr] using this
  · refine ⟨none, fun s hs => Or.inr ?_⟩
    obtain ⟨ext, hext⟩ := schedule_subject_relaxed_snd_append snap subject tt
    rw [hr] at hext
    simp only at hext
    simp only [attempt_repair, hr, if_true]
    rw [hext]
    exact List.mem_append_left _ hs

/-- The subject loop, started with an empty conflicts accumulator, returns no
timetable exactly when it returns a non-empty conflict list. -/
theorem generateAux_none_iff (snap : Snapshot) :
    ∀ (subs : List Subject) (tt : Timetable),
      ((generateAux snap subs tt []).1 = none ↔ (generateAux snap subs tt []).2 ≠ []) := by
  intro subs
  induction subs with
  | nil => intro tt; simp [generateAux]
  | cons sub rest ih =>
    intro tt
    rcases h : schedule_subject snap sub tt with ⟨ok, tt2⟩
    cases ok
    · rcases hR : resolve_conflicts snap [sub] tt2 with ⟨cs, tt3, a⟩
      cases cs with
      | nil =>
        simp only [generateAux, h, List.nil_append, hR, List.isEmpty_nil, if_true]
        exact ih tt3
      | cons c cs2 =>
        simp [generateAux, h, hR]
    · simp only [generateAux, h]
      exact ih tt2

/-- With no eligible staff there are no candidate slots. -/
theorem get_available_slots_nil_staff (snap : Snapshot) (ct : ComponentType) :
    get_available_slots snap ct [] = [] := by
  simp [get_available_slots]

/-- With no eligible staff, `schedule_subject` fails immediately, leaving the
timetable unchanged. -/
theorem staffless_schedule_false (snap : Snapshot) (subject : Subject)
    (h : get_available_staff subject.id snap.assignments = []) (tt : Timetable) :
    schedule_subject snap subject tt = (false, tt) := by
  have hc : schedule_component snap subject ComponentType.lecture tt = none := by
    simp [schedule_component, find_optimal_slot, h, get_available_slots_nil_staff]
  simp [schedule_subject, scheduleComps, hc]

/-- With no eligible staff, relaxed scheduling fails immediately as well. -/
theorem staffless_schedule_relaxed_false (snap : Snapshot) (subject : Subject)
    (h : get_available_staff subject.id snap.assignments = []) (tt : Timetable) :
    schedule_subject_relaxed snap subject tt = (false, tt) := by
  have hc : schedule_component_relaxed snap subject ComponentType.lecture tt = none := by
    simp [schedule_component_relaxed, find_optimal_slot_relaxed, h,
      get_available_slots_nil_staff]
  simp [schedule_subject_relaxed, scheduleCompsRelaxed, hc]

/-- With no eligible staff there are no eviction candidates either, so the
bounded repair fails. -/
theorem staffless_can_reschedule_false (snap : Snapshot) (subject : Subject)
    (h : get_available_staff subject.id snap.assignments = []) (tt : Timetable) :
    can_reschedule snap subject tt = false := by
  have h1 := staffless_schedule_relaxed_false snap subject h tt
  have h2 : evictionCandidates snap subject tt = [] := by
    simp [evictionCandidates, h]
  simp [can_reschedule, attempt_repair, h1, h2, tryEvict]

/-- If any subject of the queue has no eligible staff, the subject loop ends
in the abort branch and returns no timetable. -/
theorem generateAux_staffless (snap : Snapshot) (subj : Subject)
    (hstaff : get_available_staff subj.id snap.assignments = []) :
    ∀ (subs : List Subject) (tt : Timetable), subj ∈ subs →
      (generateAux snap subs tt []).1 = none := by
  intro subs
  induction subs with
  | nil => intro tt hmem; cases hmem
  | cons head rest ih =>
    intro tt hmem
    rcases List.mem_cons.mp hmem with rfl | hmem2
    · have hss := staffless_schedule_false snap subj hstaff tt
      have hcan : can_reschedule snap subj tt = false :=
        staffless_can_reschedule_false snap subj hstaff tt
      simp [generateAux, hss, resolve_conflicts, resolveAux, hcan]
    · rcases h2 : schedule_subject snap head tt with ⟨ok, tt2⟩
      cases ok
      · rcases hR : resolve_conflicts snap [head] tt2 with ⟨cs, tt3, a⟩
        cases cs with
        | nil =>
          simp only [generateAux, h2, List.nil_append, hR, List.isEmpty_nil, if_true]
          exact ih tt3 hmem2
        | cons c cs2 => simp [generateAux, h2, hR]
      · simp only [generateAux, h2]
        exact ih tt2 hmem2

/-- A clean run of the subject loop (every `schedule_subject` succeeds)
returns the accumulated timetable, an empty conflict list, exactly one slot
per (subject occurrence, component), and no foreign slots. -/
theorem generateAuxClean_run (snap : Snapshot) :
    ∀ (subs : List Subject) (tt : Timetable),
      generateAuxClean snap subs tt = true →
      ∃ ext : Timetable,
        generateAux snap subs tt [] = (some (tt ++ ext), []) ∧
        (∀ (sid : Nat) (c : ComponentType),
          (ext.filter fun sl => decide (sl.subject = sid) && decide (sl.comp = c)).length
            = (subs.filter fun s => decide (s.id = sid)).length) ∧
        (∀ sl ∈ ext, ∃ s ∈ subs, sl.subject = s.id) := by
  intro subs
  induction subs with
  | nil =>
    intro tt _
    exact ⟨[], by simp [generateAux], by intro sid c; simp, by intro sl hsl; cases hsl⟩
  | cons head rest ih =>
    intro tt hclean
    rcases h1 : schedule_subject snap head tt with ⟨ok, tt2⟩
    cases ok
    · rw [generateAuxClean, h1] at hclean; exact absurd hclean (by simp)
    · have hclean2 : generateAuxClean snap rest tt2 = true := by
        rw [generateAuxClean, h1] at hclean; exact hclean
      have hfst : (schedule_subject snap head tt).1 = true := by rw [h1]
      obtain ⟨x, y, z, hshape, hx1, hx2, hy1, hy2, hz1, hz2⟩ :=
        schedule_subject_true_shape snap head tt hfst
      have htt2 : tt2 = tt ++ [x, y, z] := by rw [h1] at hshape; exact hshape
      obtain ⟨ext, hgen, hcount, hmem⟩ := ih tt2 hclean2
      refine ⟨[x, y, z] ++ ext, ?_, ?_, ?_⟩
      · simp only [generateAux, h1]
        rw [hgen, htt2, List.append_assoc]
      · intro sid c
        rw [List.filter_append, List.length_append, hcount sid c]
        by_cases hid : head.id = sid
        · have hfh : (head :: rest).filter (fun s => decide (s.id = sid)) =
              head :: rest.filter (fun s => decide (s.id = sid)) := by
            simp [List.filter_cons, hid]
          rw [hfh]
          cases c <;>
            simp [List.filter_cons, hx1, hx2, hy1, hy2, hz1, hz2, hid] <;> omega
        · have hfh : (head :: rest).filter (fun s => decide (s.id = sid)) =
              rest.filter (fun s => decide (s.id = sid)) := by
            simp [List.filter_cons, hid]
          rw [hfh]
          cases c <;>
            simp [List.filter_cons, hx1, hx2, hy1, hy2, hz1, hz2, hid]
      · intro sl hsl
        rcases List.mem_append.mp hsl with hin | hin
        · rcases List.mem_cons.mp hin with rfl | hin2
          · exact ⟨head, List.mem_cons_self _ _, hx1⟩
          · rcases List.mem_cons.mp hin2 with rfl | hin3
            · exact ⟨head, List.mem_cons_self _ _, hy1⟩
            · rcases List.mem_cons.mp hin3 with rfl | hin4
              · exact ⟨head, List.mem_cons_self _ _, hz1⟩
              · cases hin4
        · obtain ⟨s, hs, hseq⟩ := hmem sl hin
          exact ⟨s, List.mem_cons_of_mem _ hs, hseq⟩

/-- The score-only sort never changes which slots are present, so whether
`find_optimal_slot` returns a slot depends only on slot availability, never
on the scoring terms. -/
theorem find_optimal_slot_isSome_iff (snap : Snapshot) (ct : ComponentType)
    (staffL : List Nat) (tt : Timetable) :
    (find_optimal_slot snap ct staffL tt).isSome = true ↔
      ∃ s ∈ get_available_slots snap ct staffL,
        is_slot_available s (get_component_duration snap ct) tt = true := by
  simp only [find_optimal_slot, Option.isSome_map']
  rw [List.find?_isSome]
  constructor
  · rintro ⟨p, hp, hav⟩
    have hp2 : p ∈ (get_available_slots snap ct staffL).map
        fun s => (s, calculate_slot_score snap s ct tt) :=
      ((List.perm_insertionSort scoreLe _).mem_iff).mp hp
    obtain ⟨s, hs, rfl⟩ := List.mem_map.mp hp2
    exact ⟨s, hs, hav⟩
  · rintro ⟨s, hs, hav⟩
    refine ⟨(s, calculate_slot_score snap s ct tt), ?_, hav⟩
    exact ((List.perm_insertionSort scoreLe _).mem_iff).mpr
      (List.mem_map.mpr ⟨s, hs, rfl⟩)

/-- `calculate_slot_score` equals the sum of its four independent indicator
terms. -/
theorem calculate_slot_score_eq (snap : Snapshot) (slot : Slot) (ct : ComponentType)
    (tt : Timetable) :
    calculate_slot_score snap slot ct tt =
      (if ct = ComponentType.lecture ∧ slot.hour < 12 then (10 : Int) else 0) +
      (if has_consecutive_slots snap ct slot tt then (15 : Int) else 0) +
      (if creates_gap snap ct slot tt then (-5 : Int) else 0) +
      (if is_preferred_time snap slot then (20 : Int) else 0) := by
  simp only [calculate_slot_score]
  split_ifs <;> omega

/-! ## Claim theorems -/

/-- C1 (counterexample): the conflict-detection trigger accepts an insertion
whose interval coincides with an existing row in the same room on the same
day (different staff, different batch): the room occupancy namespace is never
checked, so the claimed rejection across all three namespaces is false. -/
theorem c1_room_not_checked :
    check_timetable_conflicts rowNewRoom [rowOld] = Except.ok () ∧
    rowNewRoom.room = rowOld.room ∧ rowNewRoom.day = rowOld.day ∧
    overlapHalf rowNewRoom.start rowNewRoom.finish rowOld.start rowOld.finish = true :=
  ⟨rfl, rfl, rfl, rfl⟩

/-- C1 (amended): the conflict check performed before an insertion rejects it
exactly when it overlaps (by the trigger's inclusive interval test) an
existing row of the same staff member or of the same batch on the same day;
the room namespace is not consulted. -/
theorem c1_conflict_check_staff_batch (new : TimetableRow) (rows : List TimetableRow) :
    check_timetable_conflicts new rows = Except.ok () ↔
      ((∀ r ∈ rows, r.staff = new.staff → r.day = new.day → r.id ≠ new.id →
          timesOverlap new.start new.finish r.start r.finish = false) ∧
       (∀ r ∈ rows, r.batch = new.batch → r.day = new.day → r.id ≠ new.id →
          timesOverlap new.start new.finish r.start r.finish = false)) := by
  simp only [check_timetable_conflicts]
  cases hs : rows.any (fun r =>
      decide (r.staff = new.staff) && decide (r.day = new.day) &&
      decide (r.id ≠ new.id) && timesOverlap new.start new.finish r.start r.finish) with
  | true =>
    simp only [if_true]
    rw [List.any_eq_true] at hs
    obtain ⟨r, hr, hf⟩ := hs
    simp only [Bool.and_eq_true, decide_eq_true_eq] at hf
    simp only [reduceCtorEq, false_iff, not_and]
    intro hA
    have := hA r hr hf.1.1.1 hf.1.1.2 hf.1.2
    rw [hf.2] at this
    exact fun _ => absurd this (by simp)
  | false =>
    cases hb : rows.any (fun r =>
        decide (r.batch = new.batch) && decide (r.day = new.day) &&
        decide (r.id ≠ new.id) && timesOverlap new.start new.finish r.start r.finish) with
    | true =>
      simp only [Bool.false_eq_true, if_false, if_true]
      rw [List.any_eq_true] at hb
      obtain ⟨r, hr, hf⟩ := hb
      simp only [Bool.and_eq_true, decide_eq_true_eq] at hf
      simp only [reduceCtorEq, false_iff, not_and]
      intro _ hB
      have := hB r hr hf.1.1.1 hf.1.1.2 hf.1.2
      rw [hf.2] at this
      exact absurd this (by simp)
    | false =>
      simp only [Bool.false_eq_true, if_false, true_iff]
      rw [List.any_eq_false] at hs hb
      simp only [Bool.and_eq_true, decide_eq_true_eq, not_and, and_imp,
        Bool.not_eq_true] at hs hb
      exact ⟨hs, hb⟩

/-- C1 (witness): a concrete accepted insertion, obtained through the amended
characterization. -/
theorem c1_conflict_check_staff_batch_w :
    check_timetable_conflicts rowNewRoom [rowOld] = Except.ok () :=
  (c1_conflict_check_staff_batch rowNewRoom [rowOld]).mpr (by decide)

/-- C2 (counterexample): a well-formed snapshot (positive durations, proper
windows, assigned staff) on which the single subject places its lecture and
tutorial but not its lab: the run does not complete with a timetable plus a
conflict list; it returns no timetable at all. -/
theorem c2_unplaceable_returns_no_timetable :
    generate_timetable snapC2 = (none, [subC2]) := by decide

/-- C2 (amended): the run either completes with a timetable and an empty
conflict list, or aborts returning no timetable together with a non-empty
conflict list: an unplaceable component whose repair fails makes the whole
run return no timetable rather than partial results. -/
theorem c2_none_iff_conflicts (snap : Snapshot) :
    ((generate_timetable snap).1 = none ↔ (generate_timetable snap).2 ≠ []) :=
  generateAux_none_iff snap (sort_subjects_by_priority snap.subjects) []

/-- C2 (witness): the amended equivalence applied to the concrete aborting
snapshot. -/
theorem c2_none_iff_conflicts_w : (generate_timetable snapC2).2 ≠ [] :=
  (c2_none_iff_conflicts snapC2).mp (by decide)

/-- C3 (counterexample): for back-to-back intervals 660..720 and 600..660 the
trigger's test reports an overlap although the claimed half-open condition
`s1 < e2 and s2 < e1` fails, so the claimed iff is false. -/
theorem c3_back_to_back_conflicts :
    timesOverlap 660 720 600 660 = true ∧ ¬(660 < 660 ∧ 600 < 720) := by decide

/-- C3 (amended): the trigger's interval test is the closed-interval overlap
`s1 ≤ e2 and s2 ≤ e1` (SQL BETWEEN is inclusive), so back-to-back slots do
conflict. -/
theorem c3_overlap_closed_iff (s1 e1 s2 e2 : Nat) (h1 : s1 ≤ e1) (h2 : s2 ≤ e2) :
    (timesOverlap s1 e1 s2 e2 = true ↔ (s1 ≤ e2 ∧ s2 ≤ e1)) := by
  simp only [timesOverlap, Bool.or_eq_true, Bool.and_eq_true, decide_eq_true_eq]
  omega

/-- C3 (witness): the amended characterization at a concrete back-to-back
pair. -/
theorem c3_overlap_closed_iff_w :
    (timesOverlap 600 660 660 720 = true ↔ (600 ≤ 720 ∧ 660 ≤ 660)) :=
  c3_overlap_closed_iff 600 660 660 720 (by decide) (by decide)

/-- C4 (counterexample): two distinct candidates (same day, equal scores)
where `find_optimal_slot` returns the one with the later start time (840,
staff 1) although an equal-scored candidate starting at 540 exists: the
ordering compares scores only, so distinct candidates compare equal and the
claimed earliest-start-before-lowest-staff tie-break does not hold. -/
theorem c4_equal_score_tie :
    find_optimal_slot snapC4 ComponentType.tutorial [1, 2] [] =
      some { day := 0, start := 840, staff := 1 } ∧
    ({ day := 0, start := 540, staff := 2 } : Slot) ∈
      get_available_slots snapC4 ComponentType.tutorial [1, 2] ∧
    calculate_slot_score snapC4 { day := 0, start := 840, staff := 1 }
        ComponentType.tutorial [] =
      calculate_slot_score snapC4 { day := 0, start := 540, staff := 2 }
        ComponentType.tutorial [] ∧
    (540 : Nat) < 840 := by decide

/-- C4 (amended): the candidate ordering sorts by score descending and by
nothing else; the sort is a permutation, sorted by score, and ties between
distinct equal-score candidates are resolved by the stable sort preserving
the candidate generator's enumeration order; the run itself is a pure
function of the snapshot, so repeated runs on identical input agree. -/
theorem c4_sort_by_score_only :
    (∀ l : List (Slot × Int), (List.insertionSort scoreLe l).Perm l) ∧
    (∀ l : List (Slot × Int),
      (List.insertionSort scoreLe l).Pairwise fun a b => b.2 ≤ a.2) ∧
    (∀ snap : Snapshot, generate_timetable snap = generate_timetable snap) :=
  ⟨fun l => List.perm_insertionSort scoreLe l,
   fun l => (List.sorted_insertionSort scoreLe l).imp fun h => h,
   fun _ => rfl⟩

/-- C5 (counterexample): on `snapC5` the first subject's components are
committed (its lecture is in the working timetable) but the run aborts with
no timetable and a conflict list naming only the second subject, so the
committed components of subject 1 end up neither in the returned slots nor in
the returned conflicts. -/
theorem c5_committed_slot_lost :
    generate_timetable snapC5 = (none, [subj2]) ∧ subj1 ∈ snapC5.subjects ∧
    subj1 ≠ subj2 ∧
    ({ subject := 1, comp := ComponentType.lecture, staff := 1, day := 0, start := 600,
       finish := 660 } : ScheduledSlot) ∈ generate_working snapC5 := by decide

/-- C5 (amended): conservation holds for clean runs: when every subject
schedules without entering the conflict path, the run returns a timetable
holding exactly one slot per (subject occurrence, component), no foreign
slots, and an empty conflict list. -/
theorem c5_clean_run_conservation (snap : Snapshot) (h : generate_clean snap = true) :
    (generate_timetable snap).2 = [] ∧
    ∃ tt : Timetable, (generate_timetable snap).1 = some tt ∧
      (∀ (sid : Nat) (c : ComponentType),
        (tt.filter fun sl => decide (sl.subject = sid) && decide (sl.comp = c)).length
          = (snap.subjects.filter fun s => decide (s.id = sid)).length) ∧
      (∀ sl ∈ tt, ∃ s ∈ snap.subjects, sl.subject = s.id) := by
  obtain ⟨ext, hgen, hcount, hmem⟩ :=
    generateAuxClean_run snap (sort_subjects_by_priority snap.subjects) [] h
  have hperm : (sort_subjects_by_priority snap.subjects).Perm snap.subjects :=
    List.perm_insertionSort _ _
  constructor
  · show (generateAux snap (sort_subjects_by_priority snap.subjects) [] []).2 = []
    rw [hgen]
  · refine ⟨ext, ?_, ?_, ?_⟩
    · show (generateAux snap (sort_subjects_by_priority snap.subjects) [] []).1 = some ext
      rw [hgen]
      simp
    · intro sid c
      rw [hcount sid c]
      exact (hperm.filter _).length_eq
    · intro sl hsl
      obtain ⟨s, hs, h2⟩ := hmem sl hsl
      exact ⟨s, hperm.mem_iff.mp hs, h2⟩

/-- C5 (witness): a concrete clean run with its conservation conclusion. -/
theorem c5_clean_run_conservation_w :
    generate_clean snapW5 = true ∧ (generate_timetable snapW5).2 = [] :=
  ⟨by decide, (c5_clean_run_conservation snapW5 (by decide)).1⟩

/-- C6 (counterexample): scoring a candidate for a subject-2 tutorial next
to a committed subject-1 slot of the same staff member: the code awards +15
(total score 15) although the claim's same-subject adjacency condition is
false for the subject being scheduled and the three other claimed terms are
all zero, so the claimed sum (0) disagrees with the computed score (15).
The source's scoring path `calculate_slot_score(slot, component_type, staff,
timetable)` receives no subject, so no implementation of the helper can
apply the claim's same-subject refinement. -/
theorem c6_cross_subject_bonus :
    calculate_slot_score snapC4 slotC6 ComponentType.tutorial ttC6 = 15 ∧
    has_consecutive_slots_claimed 2 snapC4 ComponentType.tutorial slotC6 ttC6 = false ∧
    ¬(ComponentType.tutorial = ComponentType.lecture ∧ slotC6.hour < 12) ∧
    creates_gap snapC4 ComponentType.tutorial slotC6 ttC6 = false ∧
    is_preferred_time snapC4 slotC6 = false := by decide

/-- C6 (amended): the slot score is the sum of exactly the four independent
additive terms - +10 iff a lecture starts before hour 12, +15 iff the
candidate is immediately adjacent to a committed slot of the same staff on
the same day (the source's scoring path receives no subject, so the bonus
also applies across subjects), -5 iff placing it leaves the staff member an
idle gap strictly between 0 and the max-gap threshold, +20 iff the start
lies in a staff-declared preferred range - and no scoring term can
disqualify a candidate: whether `find_optimal_slot` returns a slot depends
only on slot availability, never on the scores. -/
theorem c6_score_additive :
    (∀ (snap : Snapshot) (slot : Slot) (ct : ComponentType) (tt : Timetable),
      calculate_slot_score snap slot ct tt =
        (if ct = ComponentType.lecture ∧ slot.hour < 12 then (10 : Int) else 0) +
        (if has_consecutive_slots snap ct slot tt then (15 : Int) else 0) +
        (if creates_gap snap ct slot tt then (-5 : Int) else 0) +
        (if is_preferred_time snap slot then (20 : Int) else 0)) ∧
    (∀ (snap : Snapshot) (ct : ComponentType) (staffL : List Nat) (tt : Timetable),
      ((find_optimal_slot snap ct staffL tt).isSome = true ↔
        ∃ s ∈ get_available_slots snap ct staffL,
          is_slot_available s (get_component_duration snap ct) tt = true)) :=
  ⟨calculate_slot_score_eq, find_optimal_slot_isSome_iff⟩

/-- C6 (witness): the no-disqualification direction applied at a concrete
available candidate. -/
theorem c6_score_additive_w :
    (find_optimal_slot snapC4 ComponentType.tutorial [1, 2] []).isSome = true :=
  (c6_score_additive.2 snapC4 ComponentType.tutorial [1, 2] []).mpr
    ⟨{ day := 0, start := 840, staff := 1 }, by decide, by decide⟩

/-- C7: the conflict loop performs at most one repair per conflict entry;
the bounded repair of one blocked component makes at most `retryBudget`
(default 3) repair attempts; a failed repair always restores the original
timetable (the eviction rollback invariant); and across one component's
repair at most one previously committed slot is evicted (never a cascading
multi-eviction) - every input slot other than at most one survives - so the
repair phase terminates within components times retryBudget placement
attempts. -/
theorem c7_repair_bounds (snap : Snapshot) (confs : List Subject) (tt : Timetable)
    (subject : Subject) (tt2 : Timetable) :
    (resolve_conflicts snap confs tt).2.2 ≤ confs.length ∧
    (attempt_repair snap subject tt2).2.2 ≤ retryBudget ∧
    ((attempt_repair snap subject tt2).1 = false →
      (attempt_repair snap subject tt2).2.1 = tt2) ∧
    (∃ ev : Option ScheduledSlot, ∀ s ∈ tt2,
      some s = ev ∨ s ∈ (attempt_repair snap subject tt2).2.1) := by
  refine ⟨?_, attempt_repair_attempts snap subject tt2,
    attempt_repair_rollback snap subject tt2, attempt_repair_mem snap subject tt2⟩
  simpa [resolve_conflicts] using resolveAux_attempts_le snap confs.length confs tt 0 0

/-- C7 (witness): the bounds at a concrete failing repair - the blocked
subject of `snapC5` on its working timetable - with the rollback hypothesis
discharged concretely. -/
theorem c7_repair_bounds_w :
    (attempt_repair snapC5 subj2 (generate_working snapC5)).2.2 ≤ retryBudget ∧
    (attempt_repair snapC5 subj2 (generate_working snapC5)).2.1 =
      generate_working snapC5 :=
  ⟨(c7_repair_bounds snapC5 [] [] subj2 (generate_working snapC5)).2.1,
   (c7_repair_bounds snapC5 [] [] subj2 (generate_working snapC5)).2.2.1 (by decide)⟩

/-- C8 (counterexample): on a snapshot containing a component with no
eligible staff, `generate_timetable` does not fail fatally before placement:
it proceeds to commit three slots for the schedulable subject (visible in the
working timetable) and ends with an ordinary no-timetable-plus-conflicts
outcome naming the staffless subject. -/
theorem c8_no_precheck_commits_slots :
    get_available_staff subj2.id snapC8.assignments = [] ∧
    generate_timetable snapC8 = (none, [subj2]) ∧
    (generate_working snapC8).length = 3 := by decide

/-- C8 (amended): there is no malformed-input precheck; a snapshot with a
component lacking any eligible staff flows through normal scheduling and the
run ends in the abort branch, returning no timetable and a non-empty conflict
list. -/
theorem c8_staffless_aborts (snap : Snapshot) (subj : Subject)
    (h1 : subj ∈ snap.subjects)
    (h2 : get_available_staff subj.id snap.assignments = []) :
    (generate_timetable snap).1 = none ∧ (generate_timetable snap).2 ≠ [] := by
  have hm : subj ∈ sort_subjects_by_priority snap.subjects :=
    ((List.perm_insertionSort _ _).mem_iff).mpr h1
  have hnone : (generateAux snap (sort_subjects_by_priority snap.subjects) [] []).1 = none :=
    generateAux_staffless snap subj h2 (sort_subjects_by_priority snap.subjects) [] hm
  exact ⟨hnone, (generateAux_none_iff snap (sort_subjects_by_priority snap.subjects) []).mp hnone⟩

/-- C8 (witness): the amended theorem applied to the concrete staffless
snapshot. -/
theorem c8_staffless_aborts_w :
    (generate_timetable snapC8).1 = none ∧ (generate_timetable snapC8).2 ≠ [] :=
  c8_staffless_aborts snapC8 subj2 (by decide) (by decide)

/-- C9: the availability-insert validation consults only the batch of the
first (`LIMIT 1`) assignment row of the staff member, so validation results
agree whenever that first row agrees (other batches never constrain the
insert); and for any `availability_type` other than `weekday` (including
`both`) the window compared against is that batch's weekend window. -/
theorem c9_availability_limit1 :
    (∀ (new : AvailabilityRow) (batches : List BatchRow)
        (assigns assigns2 : List AssignmentRow),
      assigns.find? (fun a => decide (a.staff = new.staff)) =
        assigns2.find? (fun a => decide (a.staff = new.staff)) →
      validate_availability_times new batches assigns =
        validate_availability_times new batches assigns2) ∧
    (∀ (new : AvailabilityRow) (batches : List BatchRow)
        (assigns : List AssignmentRow) (a : AssignmentRow) (b : BatchRow),
      assigns.find? (fun x => decide (x.staff = new.staff)) = some a →
      batches.find? (fun x => decide (x.id = a.batch)) = some b →
      new.atype ≠ AvailabilityType.weekday →
      (validate_availability_times new batches assigns = Except.ok () ↔
        (b.weekendStart ≤ new.start ∧ new.finish ≤ b.weekendEnd ∧
         new.start < new.finish))) := by
  constructor
  · intro new batches assigns assigns2 hfind
    simp only [validate_availability_times, hfind]
  · intro new batches assigns a b hfa hfb hty
    simp only [validate_availability_times, hfa, hfb, Option.some_bind, Option.map_some',
      if_neg hty]
    split_ifs with hw hse
    · simp only [reduceCtorEq, false_iff]
      simp only [Bool.or_eq_true, decide_eq_true_eq] at hw
      omega
    · simp only [reduceCtorEq, false_iff]
      omega
    · simp only [true_iff]
      simp only [Bool.or_eq_true, decide_eq_true_eq, not_or, not_lt] at hw
      omega

/-- C9 (witness): with staff 1 assigned to batches 10 and 11, validation
agrees with the single-assignment table (batch 11's absurd window never
constrains), and the `both`-typed insert is checked against batch 10's
weekend window. -/
theorem c9_availability_limit1_w :
    validate_availability_times availNew batchesX assignsTwo =
      validate_availability_times availNew batchesX assignsOne ∧
    (validate_availability_times availNew batchesX assignsOne = Except.ok () ↔
      ((540 : Nat) ≤ 520 ∧ (600 : Nat) ≤ 1230 ∧ (520 : Nat) < 600)) :=
  ⟨c9_availability_limit1.1 availNew batchesX assignsTwo assignsOne (by decide),
   c9_availability_limit1.2 availNew batchesX assignsOne
     { staff := 1, subject := 5, batch := 10 }
     { id := 10, weekdayStart := 510, weekdayEnd := 1050, weekendStart := 540,
       weekendEnd := 1230 }
     (by decide) (by decide) (by decide)⟩

/-- C10: the slot score always lies in the closed range -5..45 and is one of
the sixteen subset sums of the four scoring terms. -/
theorem c10_score_range (snap : Snapshot) (slot : Slot) (ct : ComponentType)
    (tt : Timetable) :
    -5 ≤ calculate_slot_score snap slot ct tt ∧
    calculate_slot_score snap slot ct tt ≤ 45 ∧
    calculate_slot_score snap slot ct tt ∈
      ([-5, 0, 5, 10, 15, 20, 25, 30, 35, 40, 45] : List Int) := by
  simp only [calculate_slot_score_eq]
  split_ifs <;> decide

end TimetableMgmt
